import Mathlib

/-!
# Verification of the lenme-api loan funding and payment-settlement engine

Shallow embedding of the peer-to-peer lending backend:
* `lending/models.py`, `payment/models.py` — the data model (`Loan`, `LoanOffer`,
  `Payment`, `UserProfile`);
* `lending/views.py` — `AcceptOfferView.post` and `_create_payment_schedule`;
* `payment/views.py` — `MakePaymentView.post`;
* `lending/tasks.py` — `process_loan_repayments`, `_process_automatic_payment`,
  `_check_loan_completion`.

Monetary values are embedded as exact rationals (the source uses Python
`Decimal`, whose 28-significant-digit context is exact on every computation
appearing in the theorems below).  Database rows are embedded as Lean
structures; the row store is a `DBState` holding the `UserProfile` balances as
a total map (Django's `get_or_create` with a balance default of 0 makes every
user's balance read as 0 until first written), the loans as a map from primary
key to row, and the offer and payment tables as lists.
-/

namespace Lenme

/-- Loan status choices of `lending/models.py` (`Loan.STATUS_CHOICES`). -/
inductive LoanStatus where
  | pending
  | funded
  | completed
deriving DecidableEq, Repr

/-- Payment status choices of `payment/models.py` (`Payment.STATUS_CHOICES`). -/
inductive PaymentStatus where
  | pending
  | paid
deriving DecidableEq, Repr

/-- A calendar date (`datetime.date`).  Timestamps (`funded_at`, `paid_at`) are
embedded at day granularity, which is all the due-date arithmetic observes. -/
structure Date where
  year : Int
  month : Int
  day : Int
deriving DecidableEq, Repr

/-- Gregorian leap-year test, as used by `datetime`/`dateutil`. -/
def isLeapYear (y : Int) : Bool :=
  (y % 4 == 0 && y % 100 != 0) || (y % 400 == 0)

/-- Number of days in a month of the Gregorian calendar. -/
def daysInMonth (y m : Int) : Int :=
  if m = 2 then (if isLeapYear y then 29 else 28)
  else if m = 4 ∨ m = 6 ∨ m = 9 ∨ m = 11 then 30
  else 31

/-- Embedding of `d + relativedelta(months := i)`: advance `i` calendar months, keeping the
day of month and clamping it to the length of the target month. -/
def Date.addMonths (d : Date) (i : Int) : Date :=
  let t := d.year * 12 + (d.month - 1) + i
  let y := t.fdiv 12
  let m := t.fmod 12 + 1
  { year := y, month := m, day := min d.day (daysInMonth y m) }

/-- Comparison `a <= b` on dates (`due_date__lte=today`). -/
def Date.leb (a b : Date) : Bool :=
  decide (a.year < b.year ∨ (a.year = b.year ∧
    (a.month < b.month ∨ (a.month = b.month ∧ a.day ≤ b.day))))

/-- Round a monetary value to 2 decimal places, ties away from the floor
(nearest cent, half up).  The source rounds the schedule amount with Python
`round(float(x), 2)` and the settlement breakdown with
`Decimal.quantize(Decimal("0.01"))`; both agree with this function at every
value that is not within float error of a half-cent tie, and every value this
development rounds is an exact rational at least a quarter cent away from a
tie. -/
def roundCents (x : ℚ) : ℚ := ((⌊100 * x + 1/2⌋ : ℤ) : ℚ) / 100

/-- A `lending.models.Loan` row.  `lender`, `annual_interest_rate` and
`funded_at` are nullable columns; `lenme_fee` and `total_loan_amount` default
to 0. -/
structure Loan where
  id : Nat
  borrower : Nat
  lender : Option Nat
  loan_amount : ℚ
  loan_period_months : Int
  annual_interest_rate : Option ℚ
  lenme_fee : ℚ
  total_loan_amount : ℚ
  status : LoanStatus
  funded_at : Option Date
deriving DecidableEq, Repr

/-- A `lending.models.LoanOffer` row. -/
structure LoanOffer where
  id : Nat
  loan_id : Nat
  lender : Nat
  annual_interest_rate : ℚ
  is_accepted : Bool
deriving DecidableEq, Repr

/-- A `payment.models.Payment` row.  `platform_fee` and `lender_amount`
default to 0 and are populated at settlement. -/
structure Payment where
  id : Nat
  loan_id : Nat
  payment_number : Int
  amount : ℚ
  due_date : Date
  status : PaymentStatus
  paid_at : Option Date
  platform_fee : ℚ
  lender_amount : ℚ
deriving DecidableEq, Repr

/-- The database state the engine reads and writes.  `balances` is the
`UserProfile` table keyed by user id (`get_or_create` defaults a missing
profile's balance to 0, so the table reads as a total map); `loans` is keyed
by primary key; `offers` and `payments` carry their primary key in the row.
`nextPaymentId` models the primary-key sequence of the payment table. -/
structure DBState where
  balances : Nat → ℚ
  loans : Nat → Option Loan
  offers : List LoanOffer
  payments : List Payment
  nextPaymentId : Nat

/-- The per-installment fee `lenme_fee / loan_period_months if loan_period_months > 0 else 0`
(`payment/views.py` lines 66–69 and `lending/tasks.py` lines 81–84; the
source's `loan.lenme_fee or Decimal("0")` maps 0 to 0 and the column is
non-null, so it is the identity here). -/
def feePerInstallment (loan : Loan) : ℚ :=
  if 0 < loan.loan_period_months then loan.lenme_fee / (loan.loan_period_months : ℚ)
  else 0

/-- The fields `MakePaymentView.post` / `_process_automatic_payment` write on
the settled payment row: status `paid`, the paid timestamp, and the quantized
fee split. -/
def settledPayment (p : Payment) (loan : Loan) (now : Date) : Payment :=
  { p with
    status := PaymentStatus.paid
    paid_at := some now
    platform_fee := roundCents (feePerInstallment loan)
    lender_amount := roundCents (p.amount - feePerInstallment loan) }

/-- Result of `MakePaymentView.post`, after the payment row has been located. -/
inductive PayResult where
  | notFound
  | alreadyPaid
  /-- Case where `loan.lender` is null: the lender-profile lookup raises after the
  payment row was already saved (the view runs outside any transaction). -/
  | missingLender
  | ok (loanStatus : LoanStatus) (platform_fee lender_amount : ℚ)
deriving DecidableEq, Repr

/-- Success path of `MakePaymentView.post` (`payment/views.py` lines 54–94):
compute the fee split, save the payment row with its quantized breakdown,
credit the lender with the *unquantized* `lender_amount`, then re-scan the
loan's payments and mark the loan completed if all are paid. -/
def settleCore (s : DBState) (p : Payment) (loan : Loan) (lender : Nat) (now : Date) :
    PayResult × DBState :=
  let f := feePerInstallment loan
  let raw := p.amount - f
  let pays := s.payments.map (fun q => if q.id == p.id then settledPayment p loan now else q)
  let bal := Function.update s.balances lender (s.balances lender + raw)
  if (pays.filter (fun q => q.loan_id == loan.id)).all (fun q => q.status == PaymentStatus.paid) then
    (PayResult.ok LoanStatus.completed (roundCents f) (roundCents raw),
      { s with payments := pays, balances := bal,
               loans := Function.update s.loans loan.id
                 (some { loan with status := LoanStatus.completed }) })
  else
    (PayResult.ok loan.status (roundCents f) (roundCents raw),
      { s with payments := pays, balances := bal })

/-- Embedding of `MakePaymentView.post` (`payment/views.py` lines 19–111), entered with a
`payment_id`: locate the payment, reject if already paid, then settle.  The
view performs no borrower-balance check and no borrower debit. -/
def makePayment (s : DBState) (pid : Nat) (now : Date) : PayResult × DBState :=
  match s.payments.find? (fun q => q.id == pid) with
  | none => (PayResult.notFound, s)
  | some p =>
    if p.status = PaymentStatus.paid then (PayResult.alreadyPaid, s)
    else
      match s.loans p.loan_id with
      | none => (PayResult.notFound, s)
      | some loan =>
        match loan.lender with
        | none =>
          (PayResult.missingLender,
            { s with payments :=
                s.payments.map (fun q => if q.id == p.id then settledPayment p loan now else q) })
        | some lender => settleCore s p loan lender now

/-! ## Offer acceptance and schedule generation (`lending/views.py`) -/

/-- Result of `AcceptOfferView.post`. -/
inductive AcceptResult where
  | notFound
  | alreadyAccepted
  | insufficientBalance
  /-- Case `loan_period_months == 0`: `_create_payment_schedule` raises
  `DivisionByZero` on `principal / num_payments`.  The view runs outside any
  transaction, so the lender debit, loan update and offer update already
  saved remain committed while no payment row is created. -/
  | divisionByZero
  | ok
deriving DecidableEq, Repr

/-- Embedding of `AcceptOfferView._create_payment_schedule` (`lending/views.py` lines
275–297), called on the freshly funded loan: one flat monthly amount
`round(total / n + total * rate / 100 / 12, 2)`, and for `i` in
`range(1, n + 1)` a pending payment due `funded_at + relativedelta(months=i)`.
At the only call site `funded_at` and `annual_interest_rate` were just set, so
the `none` fallbacks are dead; `n = 0` is excluded before the call (the
division raises in the source) and a negative `n` yields the empty range
exactly as in Python. -/
def createPaymentSchedule (loan : Loan) (startId : Nat) : List Payment :=
  match loan.funded_at with
  | none => []
  | some fundedAt =>
    let principal := loan.total_loan_amount
    let monthlyRate := (loan.annual_interest_rate.getD 0) / 100 / 12
    let numPayments := loan.loan_period_months
    let monthlyPayment := roundCents (principal / (numPayments : ℚ) + principal * monthlyRate)
    (List.range' 1 numPayments.toNat).map (fun i =>
      { id := startId + (i - 1)
        loan_id := loan.id
        payment_number := (i : Int)
        amount := monthlyPayment
        due_date := fundedAt.addMonths (i : Int)
        status := PaymentStatus.pending
        paid_at := none
        platform_fee := 0
        lender_amount := 0 })

/-- Embedding of `AcceptOfferView.post` (`lending/views.py` lines 213–273): locate the
offer, reject if already accepted, re-check the lender's balance against
`loan_amount + Decimal("3.75")`, then — in source order, each `save()`
committing on its own since the view opens no transaction — debit the lender,
write the funded loan, mark the offer accepted, and create the payment
schedule.  No check of `loan.status` or `loan.lender` is performed. -/
def acceptOffer (s : DBState) (offerId : Nat) (now : Date) : AcceptResult × DBState :=
  match s.offers.find? (fun o => o.id == offerId) with
  | none => (AcceptResult.notFound, s)
  | some offer =>
    if offer.is_accepted then (AcceptResult.alreadyAccepted, s)
    else
      match s.loans offer.loan_id with
      | none => (AcceptResult.notFound, s)
      | some loan =>
        let lenmeFee : ℚ := 375/100
        let totalLoanAmount := loan.loan_amount + lenmeFee
        if s.balances offer.lender < totalLoanAmount then (AcceptResult.insufficientBalance, s)
        else
          let debited :=
            Function.update s.balances offer.lender (s.balances offer.lender - totalLoanAmount)
          let s1 := { s with balances := debited }
          let loanUpd := { loan with
            lender := some offer.lender
            annual_interest_rate := some offer.annual_interest_rate
            lenme_fee := lenmeFee
            total_loan_amount := totalLoanAmount
            status := LoanStatus.funded
            funded_at := some now }
          let s2 := { s1 with loans := Function.update s1.loans loan.id (some loanUpd) }
          let offersUpd :=
            s2.offers.map (fun o => if o.id == offerId then { offer with is_accepted := true } else o)
          let s3 := { s2 with offers := offersUpd }
          if loanUpd.loan_period_months = 0 then (AcceptResult.divisionByZero, s3)
          else
            let schedule := createPaymentSchedule loanUpd s3.nextPaymentId
            (AcceptResult.ok,
              { s3 with payments := s3.payments ++ schedule,
                        nextPaymentId := s3.nextPaymentId + schedule.length })

/-! ## Batch repayment sweep (`lending/tasks.py`) -/

/-- The filter of `process_loan_repayments` (`lending/tasks.py` lines 27–29):
`due_date__lte=today, status="pending", loan__status="funded"`. -/
def duePredicate (s : DBState) (today : Date) (p : Payment) : Bool :=
  p.due_date.leb today && decide (p.status = PaymentStatus.pending) &&
    (match s.loans p.loan_id with
     | some loan => decide (loan.status = LoanStatus.funded)
     | none => false)

/-- The queryset of due pending payments of funded loans. -/
def dueFilter (s : DBState) (today : Date) : List Payment :=
  s.payments.filter (duePredicate s today)

/-- The snapshot the sweep iterates: each selected payment paired with its
loan row as fetched by `select_related("loan", ...)` at query time. -/
def dueSelection (s : DBState) (today : Date) : List (Payment × Loan) :=
  (dueFilter s today).filterMap (fun p => (s.loans p.loan_id).map (fun loan => (p, loan)))

/-- Embedding of `_process_automatic_payment` (`lending/tasks.py` lines 75–116): compute
the fee split, debit the borrower by the full payment amount, save the
payment row with its quantized breakdown, then credit the lender with the
*unquantized* `lender_amount`.  A null `loan.lender` raises inside the
function's own `try`, which swallows the exception and reports failure with
the earlier saves kept (the surrounding `transaction.atomic` only rolls back
on an escaping exception). -/
def processAutomaticPayment (s : DBState) (p : Payment) (loan : Loan) (now : Date) :
    Bool × DBState :=
  let f := feePerInstallment loan
  let raw := p.amount - f
  let debited := Function.update s.balances loan.borrower (s.balances loan.borrower - p.amount)
  let s1 := { s with balances := debited }
  let paysUpd := s1.payments.map (fun q => if q.id == p.id then settledPayment p loan now else q)
  let s2 := { s1 with payments := paysUpd }
  match loan.lender with
  | none => (false, s2)
  | some lender =>
    (true, { s2 with balances := Function.update s2.balances lender (s2.balances lender + raw) })

/-- Embedding of `_check_loan_completion` (`lending/tasks.py` lines 119–125): re-query the
loan's payments; if all are paid, save the (snapshot) loan instance with
status completed. -/
def checkLoanCompletion (s : DBState) (loan : Loan) : Bool × DBState :=
  if (s.payments.filter (fun q => q.loan_id == loan.id)).all
      (fun q => q.status == PaymentStatus.paid) then
    (true, { s with loans :=
      Function.update s.loans loan.id (some { loan with status := LoanStatus.completed }) })
  else
    (false, s)

/-- One iteration of the sweep loop (`lending/tasks.py` lines 35–61), carrying
`(state, processed_count, failed_count, completed_loans)`.  The borrower
balance is re-read from the current state (`get_or_create` each iteration);
the payment and loan fields come from the query snapshot.  A borrower balance
below the payment amount takes no action at all — the `if` has no `else`, so
nothing is counted. -/
def sweepStep (now : Date) (acc : DBState × Nat × Nat × List Nat) (pl : Payment × Loan) :
    DBState × Nat × Nat × List Nat :=
  let (s, processed, failed, completedLoans) := acc
  let (p, loan) := pl
  if p.amount ≤ s.balances loan.borrower then
    let (success, s1) := processAutomaticPayment s p loan now
    if success then
      let (done, s2) := checkLoanCompletion s1 loan
      (s2, processed + 1, failed, if done then completedLoans ++ [loan.id] else completedLoans)
    else (s1, processed, failed + 1, completedLoans)
  else acc

/-- The summary dict returned by `process_loan_repayments`. -/
structure SweepSummary where
  processed_payments : Nat
  failed_payments : Nat
  completed_loans : List Nat
  total_due_payments : Nat
deriving DecidableEq, Repr

/-- Embedding of `process_loan_repayments` (`lending/tasks.py` lines 10–72): evaluate the
due queryset once, fold the loop over it, and build the summary.
`overdue_payments.count()` re-executes the count query after the loop, so
`total_due_payments` counts the matches in the *final* state. -/
def processLoanRepayments (s : DBState) (today now : Date) : SweepSummary × DBState :=
  let (s1, processed, failed, completedLoans) :=
    (dueSelection s today).foldl (sweepStep now) (s, 0, 0, [])
  ({ processed_payments := processed
     failed_payments := failed
     completed_loans := completedLoans
     total_due_payments := (dueFilter s1 today).length }, s1)

/-! ## Concrete states used by the theorems below -/

/-- Witness loan for `C4_schedule_shape`: a 3-month loan funded on
2026-01-31 (so that the day-clamping month arithmetic is exercised). -/
def c4Loan : Loan :=
  { id := 7, borrower := 1, lender := some 2, loan_amount := 300,
    loan_period_months := 3, annual_interest_rate := some 12, lenme_fee := 375/100,
    total_loan_amount := 30375/100, status := LoanStatus.funded,
    funded_at := some ⟨2026, 1, 31⟩ }

/-- Witness state for the settlement theorems: a funded 12-month loan with
the spec's scenario numbers and one pending installment of 481.61. -/
def c6Loan : Loan :=
  { id := 1, borrower := 1, lender := some 2, loan_amount := 5000,
    loan_period_months := 12, annual_interest_rate := some (155/10),
    lenme_fee := 375/100, total_loan_amount := 500375/100,
    status := LoanStatus.funded, funded_at := some ⟨2026, 10, 12⟩ }

/-- The first installment row the C5 scenario schedule creates. -/
def c5Pay1 : Payment :=
  { id := 1, loan_id := 1, payment_number := 1, amount := 48161/100,
    due_date := ⟨2026, 11, 12⟩, status := PaymentStatus.pending, paid_at := none,
    platform_fee := 0, lender_amount := 0 }

/-- The pending installment of the witness state. -/
def c6Pay : Payment :=
  { id := 1, loan_id := 1, payment_number := 1, amount := 48161/100,
    due_date := ⟨2026, 11, 12⟩, status := PaymentStatus.pending, paid_at := none,
    platform_fee := 0, lender_amount := 0 }

/-- Witness state holding the loan and its single pending installment. -/
def c6State : DBState :=
  { balances := fun _ => 0
    loans := fun k => if k = 1 then some c6Loan else none
    offers := []
    payments := [c6Pay]
    nextPaymentId := 2 }

/-- Counterexample state for C7: lender balance 0, one pending installment of
481.61 on the funded 12-month loan with fee 3.75. -/
def c7State : DBState :=
  { balances := fun _ => 0
    loans := fun k => if k = 1 then some c6Loan else none
    offers := []
    payments := [c6Pay]
    nextPaymentId := 2 }

/-- Witness loan for `C9_completion_detection`: a funded 2-payment loan whose
other installment is already paid, so the settlement completes the loan. -/
def c9Loan : Loan :=
  { id := 3, borrower := 1, lender := some 2, loan_amount := 1000,
    loan_period_months := 2, annual_interest_rate := some 12, lenme_fee := 375/100,
    total_loan_amount := 100375/100, status := LoanStatus.funded,
    funded_at := some ⟨2026, 8, 1⟩ }

/-- The pending last installment of the C9 witness loan. -/
def c9Pay : Payment :=
  { id := 11, loan_id := 3, payment_number := 2, amount := 51191/100,
    due_date := ⟨2026, 10, 1⟩, status := PaymentStatus.pending, paid_at := none,
    platform_fee := 0, lender_amount := 0 }

/-- The already-paid first installment of the C9 witness loan. -/
def c9PaidPay : Payment :=
  { id := 10, loan_id := 3, payment_number := 1, amount := 51191/100,
    due_date := ⟨2026, 9, 1⟩, status := PaymentStatus.paid, paid_at := some ⟨2026, 9, 1⟩,
    platform_fee := 188/100, lender_amount := 51003/100 }

/-- Witness state for `C9_completion_detection`. -/
def c9State : DBState :=
  { balances := fun _ => 1000
    loans := fun k => if k = 3 then some c9Loan else none
    offers := []
    payments := [c9PaidPay, c9Pay]
    nextPaymentId := 12 }

/-- A funded 3-month loan of 1500 with the flat 3.75 fee. -/
def c1Loan : Loan :=
  { id := 1, borrower := 1, lender := some 2, loan_amount := 1500,
    loan_period_months := 3, annual_interest_rate := some 10, lenme_fee := 375/100,
    total_loan_amount := 150375/100, status := LoanStatus.funded,
    funded_at := some ⟨2026, 7, 1⟩ }

/-- State for C1: the borrower's balance is 0, far below the 500.00 first
installment of the funded loan; two later installments are still pending. -/
def c1State : DBState :=
  { balances := fun _ => 0
    loans := fun k => if k = 1 then some c1Loan else none
    offers := []
    payments :=
      [{ id := 1, loan_id := 1, payment_number := 1, amount := 500,
         due_date := ⟨2026, 8, 1⟩, status := PaymentStatus.pending, paid_at := none,
         platform_fee := 0, lender_amount := 0 },
       { id := 2, loan_id := 1, payment_number := 2, amount := 500,
         due_date := ⟨2026, 9, 1⟩, status := PaymentStatus.pending, paid_at := none,
         platform_fee := 0, lender_amount := 0 },
       { id := 3, loan_id := 1, payment_number := 3, amount := 500,
         due_date := ⟨2026, 10, 1⟩, status := PaymentStatus.pending, paid_at := none,
         platform_fee := 0, lender_amount := 0 }]
    nextPaymentId := 4 }

/-- A pending 2-month loan of 100 awaiting offers. -/
def c2Loan : Loan :=
  { id := 1, borrower := 1, lender := none, loan_amount := 100,
    loan_period_months := 2, annual_interest_rate := none, lenme_fee := 0,
    total_loan_amount := 0, status := LoanStatus.pending, funded_at := none }

/-- State for C2: one pending loan with two competing offers (both submitted
while the loan had no lender), both lenders holding 1000. -/
def c2State : DBState :=
  { balances := fun u => if u = 2 ∨ u = 3 then 1000 else 0
    loans := fun k => if k = 1 then some c2Loan else none
    offers :=
      [{ id := 1, loan_id := 1, lender := 2, annual_interest_rate := 10, is_accepted := false },
       { id := 2, loan_id := 1, lender := 3, annual_interest_rate := 12, is_accepted := false }]
    payments := []
    nextPaymentId := 1 }

/-- A pending loan whose term is 0 months (the create endpoint validates the
term only for truthiness — `if not all([...])` — so the string "0" or any
negative value passes into `int(...)`). -/
def c3Loan : Loan :=
  { id := 1, borrower := 1, lender := none, loan_amount := 100,
    loan_period_months := 0, annual_interest_rate := none, lenme_fee := 0,
    total_loan_amount := 0, status := LoanStatus.pending, funded_at := none }

/-- State for C3: the 0-month pending loan, one offer, lender balance 1000. -/
def c3State : DBState :=
  { balances := fun u => if u = 2 then 1000 else 0
    loans := fun k => if k = 1 then some c3Loan else none
    offers :=
      [{ id := 1, loan_id := 1, lender := 2, annual_interest_rate := 10, is_accepted := false }]
    payments := []
    nextPaymentId := 1 }

/-- State for C5, the spec's scenario: a pending 12-month loan of 5000.00
with an offer at 15.50%, lender balance 10000. -/
def c5State : DBState :=
  { balances := fun u => if u = 2 then 10000 else 0
    loans := fun k => if k = 1 then
        some { id := 1, borrower := 1, lender := none, loan_amount := 5000,
               loan_period_months := 12, annual_interest_rate := none, lenme_fee := 0,
               total_loan_amount := 0, status := LoanStatus.pending, funded_at := none }
      else none
    offers :=
      [{ id := 1, loan_id := 1, lender := 2, annual_interest_rate := 155/10,
         is_accepted := false }]
    payments := []
    nextPaymentId := 1 }

/-- The loan row as `AcceptOfferView` writes it for the C5 scenario. -/
def c5Funded : Loan :=
  { id := 1, borrower := 1, lender := some 2, loan_amount := 5000,
    loan_period_months := 12, annual_interest_rate := some (155/10),
    lenme_fee := 375/100, total_loan_amount := 500375/100,
    status := LoanStatus.funded, funded_at := some ⟨2026, 10, 12⟩ }

/-- State for C10: one funded loan whose 500.00 installment is overdue while
the borrower's balance is 0. -/
def c10State : DBState :=
  { balances := fun _ => 0
    loans := fun k => if k = 1 then some c1Loan else none
    offers := []
    payments :=
      [{ id := 1, loan_id := 1, payment_number := 1, amount := 500,
         due_date := ⟨2026, 9, 1⟩, status := PaymentStatus.pending, paid_at := none,
         platform_fee := 0, lender_amount := 0 }]
    nextPaymentId := 2 }

/-! ## Shared lemmas -/

/-- Rounding to cents moves a value by at most half a cent. -/
theorem roundCents_near (x : ℚ) : |roundCents x - x| ≤ 1 / 200 := by
  have h1 := Int.floor_le ((100 : ℚ) * x + 1 / 2)
  have h2 := Int.lt_floor_add_one ((100 : ℚ) * x + 1 / 2)
  rw [roundCents, abs_le]
  constructor <;> linarith

/-- A payment located by `find?` satisfies the id predicate. -/
theorem find?_id_eq {l : List Payment} {pid : Nat} {p : Payment}
    (hp : l.find? (fun q => q.id == pid) = some p) : p.id = pid := by
  have := List.find?_some hp
  simpa using this

/-- After saving the settled row over every row with the settled id, `find?`
for that id returns the settled row (provided the id was present). -/
theorem find?_map_saved (l : List Payment) (pid : Nat) (pNew : Payment)
    (hid : pNew.id = pid) {p : Payment}
    (hp : l.find? (fun q => q.id == pid) = some p) :
    (l.map (fun q => if q.id == pid then pNew else q)).find? (fun q => q.id == pid)
      = some pNew := by
  induction l with
  | nil => simp at hp
  | cons a t ih =>
    by_cases ha : a.id = pid
    · simp [List.find?_cons, ha, hid]
    · rw [List.find?_cons_of_neg _ (by simpa using ha)] at hp
      simpa [List.find?_cons, ha, hid] using ih hp

/-- Under the hypotheses that the payment row exists, is pending, its loan
row exists and the loan has a lender, `MakePaymentView.post` runs its success
path. -/
theorem makePayment_eq_settleCore (s : DBState) (pid : Nat) (now : Date)
    (p : Payment) (loan : Loan) (lender : Nat)
    (hp : s.payments.find? (fun q => q.id == pid) = some p)
    (hpend : p.status = PaymentStatus.pending)
    (hloan : s.loans p.loan_id = some loan)
    (hlender : loan.lender = some lender) :
    makePayment s pid now = settleCore s p loan lender now := by
  have hne : ¬ p.status = PaymentStatus.paid := by rw [hpend]; intro hc; cases hc
  unfold makePayment
  rw [hp]
  simp only [hloan, hlender, if_neg hne]

/-- The payments table after the success path: the settled row saved over its
id, everything else untouched. -/
theorem settleCore_payments (s : DBState) (p : Payment) (loan : Loan) (lender : Nat)
    (now : Date) :
    (settleCore s p loan lender now).2.payments
      = s.payments.map (fun q => if q.id == p.id then settledPayment p loan now else q) := by
  unfold settleCore
  dsimp only
  split <;> rfl

/-- The balances after the success path: only the lender's balance changes,
credited with the unquantized lender share. -/
theorem settleCore_balances (s : DBState) (p : Payment) (loan : Loan) (lender : Nat)
    (now : Date) :
    (settleCore s p loan lender now).2.balances
      = Function.update s.balances lender
          (s.balances lender + (p.amount - feePerInstallment loan)) := by
  unfold settleCore
  dsimp only
  split <;> rfl

/-- The success path reports `ok` with the quantized breakdown. -/
theorem settleCore_fst (s : DBState) (p : Payment) (loan : Loan) (lender : Nat)
    (now : Date) :
    ∃ st, (settleCore s p loan lender now).1
      = PayResult.ok st (roundCents (feePerInstallment loan))
          (roundCents (p.amount - feePerInstallment loan)) := by
  unfold settleCore
  dsimp only
  split
  · exact ⟨LoanStatus.completed, rfl⟩
  · exact ⟨loan.status, rfl⟩

/-- Every payment the schedule generator emits carries the flat monthly
amount: the rounded `total / n + total * rate / 100 / 12`. -/
theorem schedule_amount (loan : Loan) (startId : Nat) :
    ∀ pay ∈ createPaymentSchedule loan startId,
      pay.amount = roundCents (loan.total_loan_amount / (loan.loan_period_months : ℚ) +
        loan.total_loan_amount * (loan.annual_interest_rate.getD 0 / 100 / 12)) := by
  intro pay hpay
  unfold createPaymentSchedule at hpay
  cases hfd : loan.funded_at with
  | none => rw [hfd] at hpay; cases hpay
  | some fd =>
    rw [hfd] at hpay
    dsimp only at hpay
    rcases List.mem_map.1 hpay with ⟨i, _, rfl⟩
    rfl

/-- C4: for a loan with a positive term, schedule generation produces exactly
`loan_period_months` entries, whose sequence numbers are 1, 2, …,
`loan_period_months` in ascending order, and whose due dates are the funding
date plus `payment_number` calendar months. -/
theorem C4_schedule_shape (loan : Loan) (startId : Nat) (fd : Date)
    (hfd : loan.funded_at = some fd) (hn : 0 < loan.loan_period_months) :
    ((createPaymentSchedule loan startId).length : Int) = loan.loan_period_months ∧
    (createPaymentSchedule loan startId).map Payment.payment_number
      = (List.range' 1 loan.loan_period_months.toNat).map Int.ofNat ∧
    ∀ pay ∈ createPaymentSchedule loan startId,
      pay.due_date = fd.addMonths pay.payment_number := by
  unfold createPaymentSchedule
  rw [hfd]
  dsimp only
  refine ⟨?_, ?_, ?_⟩
  · rw [List.length_map, List.length_range', Int.toNat_of_nonneg hn.le]
  · rw [List.map_map]; rfl
  · intro pay hpay
    rcases List.mem_map.1 hpay with ⟨i, _, rfl⟩
    rfl

/-- Witness: `C4_schedule_shape` applied to the concrete 3-month loan. -/
theorem C4_schedule_shape_witness :
    c4Loan.funded_at = some ⟨2026, 1, 31⟩ ∧ 0 < c4Loan.loan_period_months ∧
    ((createPaymentSchedule c4Loan 1).length : Int) = c4Loan.loan_period_months :=
  ⟨rfl, by decide, (C4_schedule_shape c4Loan 1 ⟨2026, 1, 31⟩ rfl (by decide)).1⟩

/-- If after the save every payment of the loan is paid, the success path
marks the loan completed and reports it. -/
theorem settleCore_all_paid (s : DBState) (p : Payment) (loan : Loan) (lender : Nat)
    (now : Date)
    (h : ((s.payments.map (fun q => if q.id == p.id then settledPayment p loan now else q)).filter
        (fun q => q.loan_id == loan.id)).all (fun q => q.status == PaymentStatus.paid) = true) :
    (settleCore s p loan lender now).2.loans
      = Function.update s.loans loan.id (some { loan with status := LoanStatus.completed }) ∧
    (settleCore s p loan lender now).1
      = PayResult.ok LoanStatus.completed (roundCents (feePerInstallment loan))
          (roundCents (p.amount - feePerInstallment loan)) := by
  unfold settleCore
  dsimp only
  rw [if_pos h]
  exact ⟨rfl, rfl⟩

/-- If some payment of the loan is still pending after the save, the success
path leaves the loan table untouched and reports the loan's prior status. -/
theorem settleCore_not_all_paid (s : DBState) (p : Payment) (loan : Loan) (lender : Nat)
    (now : Date)
    (h : ¬ ((s.payments.map (fun q => if q.id == p.id then settledPayment p loan now else q)).filter
        (fun q => q.loan_id == loan.id)).all (fun q => q.status == PaymentStatus.paid) = true) :
    (settleCore s p loan lender now).2.loans = s.loans ∧
    (settleCore s p loan lender now).1
      = PayResult.ok loan.status (roundCents (feePerInstallment loan))
          (roundCents (p.amount - feePerInstallment loan)) := by
  unfold settleCore
  dsimp only
  rw [if_neg h]
  exact ⟨rfl, rfl⟩

/-- C6: at every settlement through the payment endpoint, the platform-fee
share plus the lender-net share stored on the settled payment row differ from
the settled amount by at most one cent, for any non-negative fee and positive
term. -/
theorem C6_fee_split_within_cent (s : DBState) (pid : Nat) (now : Date)
    (p : Payment) (loan : Loan) (lender : Nat)
    (hp : s.payments.find? (fun q => q.id == pid) = some p)
    (hpend : p.status = PaymentStatus.pending)
    (hloan : s.loans p.loan_id = some loan)
    (hlender : loan.lender = some lender)
    (hfee : 0 ≤ loan.lenme_fee)
    (hterm : 0 < loan.loan_period_months) :
    ∃ q, (makePayment s pid now).2.payments.find? (fun r => r.id == pid) = some q ∧
      |q.platform_fee + q.lender_amount - p.amount| ≤ 1/100 := by
  have hpid : p.id = pid := find?_id_eq hp
  rw [makePayment_eq_settleCore s pid now p loan lender hp hpend hloan hlender,
    settleCore_payments]
  refine ⟨settledPayment p loan now, ?_, ?_⟩
  · rw [hpid]
    exact find?_map_saved s.payments pid (settledPayment p loan now)
      (by simp [settledPayment, hpid]) hp
  · have h1 := roundCents_near (feePerInstallment loan)
    have h2 := roundCents_near (p.amount - feePerInstallment loan)
    rw [abs_le] at h1 h2 ⊢
    dsimp only [settledPayment]
    constructor <;> linarith

/-- Witness: `C6_fee_split_within_cent` at the concrete scenario state. -/
theorem C6_fee_split_within_cent_witness :
    c6State.payments.find? (fun q => q.id == 1) = some c6Pay ∧
    c6Pay.status = PaymentStatus.pending ∧
    0 ≤ c6Loan.lenme_fee ∧ 0 < c6Loan.loan_period_months ∧
    ∃ q, (makePayment c6State 1 ⟨2026, 11, 12⟩).2.payments.find? (fun r => r.id == 1) = some q ∧
      |q.platform_fee + q.lender_amount - c6Pay.amount| ≤ 1/100 :=
  ⟨rfl, rfl, by norm_num [c6Loan], by decide,
    C6_fee_split_within_cent c6State 1 ⟨2026, 11, 12⟩ c6Pay c6Loan 2
      rfl rfl rfl rfl (by norm_num [c6Loan]) (by decide)⟩

/-- C7 (amended): at settlement the lender's balance is credited with the
*unquantized* lender share `amount - fee/term`, while the payment row stores
that share quantized to cents — the two agree only up to the rounding. -/
theorem C7_credit_unrounded_share (s : DBState) (pid : Nat) (now : Date)
    (p : Payment) (loan : Loan) (lender : Nat)
    (hp : s.payments.find? (fun q => q.id == pid) = some p)
    (hpend : p.status = PaymentStatus.pending)
    (hloan : s.loans p.loan_id = some loan)
    (hlender : loan.lender = some lender) :
    (makePayment s pid now).2.balances lender
      = s.balances lender + (p.amount - feePerInstallment loan) ∧
    ∃ q, (makePayment s pid now).2.payments.find? (fun r => r.id == pid) = some q ∧
      q.lender_amount = roundCents (p.amount - feePerInstallment loan) := by
  have hpid : p.id = pid := find?_id_eq hp
  rw [makePayment_eq_settleCore s pid now p loan lender hp hpend hloan hlender]
  constructor
  · rw [settleCore_balances]
    exact Function.update_same lender _ s.balances
  · rw [settleCore_payments]
    refine ⟨settledPayment p loan now, ?_, rfl⟩
    rw [hpid]
    exact find?_map_saved s.payments pid (settledPayment p loan now)
      (by simp [settledPayment, hpid]) hp

/-- Witness: `C7_credit_unrounded_share` at the concrete scenario state
(fee 3.75 over 12 months: the unquantized share 481.2975 is credited while
481.30 is stored). -/
theorem C7_credit_unrounded_share_witness :
    c6State.payments.find? (fun q => q.id == 1) = some c6Pay ∧
    (makePayment c6State 1 ⟨2026, 11, 12⟩).2.balances 2
      = c6State.balances 2 + (c6Pay.amount - feePerInstallment c6Loan) ∧
    ∃ q, (makePayment c6State 1 ⟨2026, 11, 12⟩).2.payments.find? (fun r => r.id == 1) = some q ∧
      q.lender_amount = roundCents (c6Pay.amount - feePerInstallment c6Loan) :=
  ⟨rfl,
    (C7_credit_unrounded_share c6State 1 ⟨2026, 11, 12⟩ c6Pay c6Loan 2 rfl rfl rfl rfl).1,
    (C7_credit_unrounded_share c6State 1 ⟨2026, 11, 12⟩ c6Pay c6Loan 2 rfl rfl rfl rfl).2⟩

/-- C7 counterexample: settling the 481.61 installment credits the lender
481.2975 (the unquantized share), while the payment record stores 481.30 —
the amount added to the balance is *not* the stored lender-net share. -/
theorem C7_counterexample :
    (makePayment c7State 1 ⟨2026, 11, 12⟩).2.balances 2 = 1925190/4000 ∧
    ((makePayment c7State 1 ⟨2026, 11, 12⟩).2.payments.map Payment.lender_amount)
      = [48130/100] ∧
    (1925190/4000 : ℚ) ≠ 48130/100 := by
  refine ⟨by with_unfolding_all rfl, by with_unfolding_all rfl, by norm_num⟩

/-- C8: the already-paid guard runs before any mutation, so settling the same
payment twice succeeds once; the second call fails with the already-paid
error and returns the state unchanged (in particular, no second credit). -/
theorem C8_settle_idempotent (s : DBState) (pid : Nat) (now now2 : Date)
    (p : Payment) (loan : Loan) (lender : Nat)
    (hp : s.payments.find? (fun q => q.id == pid) = some p)
    (hpend : p.status = PaymentStatus.pending)
    (hloan : s.loans p.loan_id = some loan)
    (hlender : loan.lender = some lender) :
    (∃ st, (makePayment s pid now).1
        = PayResult.ok st (roundCents (feePerInstallment loan))
            (roundCents (p.amount - feePerInstallment loan))) ∧
    makePayment (makePayment s pid now).2 pid now2
      = (PayResult.alreadyPaid, (makePayment s pid now).2) := by
  have hpid : p.id = pid := find?_id_eq hp
  rw [makePayment_eq_settleCore s pid now p loan lender hp hpend hloan hlender]
  refine ⟨settleCore_fst s p loan lender now, ?_⟩
  have hfind : (settleCore s p loan lender now).2.payments.find? (fun q => q.id == pid)
      = some (settledPayment p loan now) := by
    rw [settleCore_payments, hpid]
    exact find?_map_saved s.payments pid (settledPayment p loan now)
      (by simp [settledPayment, hpid]) hp
  unfold makePayment
  rw [hfind]
  rfl

/-- Witness: `C8_settle_idempotent` at the concrete scenario state. -/
theorem C8_settle_idempotent_witness :
    c6State.payments.find? (fun q => q.id == 1) = some c6Pay ∧
    makePayment (makePayment c6State 1 ⟨2026, 11, 12⟩).2 1 ⟨2026, 11, 13⟩
      = (PayResult.alreadyPaid, (makePayment c6State 1 ⟨2026, 11, 12⟩).2) :=
  ⟨rfl,
    (C8_settle_idempotent c6State 1 ⟨2026, 11, 12⟩ ⟨2026, 11, 13⟩ c6Pay c6Loan 2
      rfl rfl rfl rfl).2⟩

/-- C9: settling the last still-pending payment of a funded loan marks the
loan completed within the same settlement; settling while another payment of
the loan is still pending leaves the loan row untouched, hence funded. -/
theorem C9_completion_detection (s : DBState) (pid : Nat) (now : Date)
    (p : Payment) (loan : Loan) (lender : Nat)
    (hp : s.payments.find? (fun q => q.id == pid) = some p)
    (hpend : p.status = PaymentStatus.pending)
    (hloan : s.loans p.loan_id = some loan)
    (hlender : loan.lender = some lender)
    (hfund : loan.status = LoanStatus.funded)
    (hid : loan.id = p.loan_id) :
    ((∀ q ∈ s.payments, q.loan_id = p.loan_id → q.id ≠ pid → q.status = PaymentStatus.paid) →
      (makePayment s pid now).2.loans p.loan_id
          = some { loan with status := LoanStatus.completed } ∧
      (makePayment s pid now).1
          = PayResult.ok LoanStatus.completed (roundCents (feePerInstallment loan))
              (roundCents (p.amount - feePerInstallment loan))) ∧
    ((∃ q ∈ s.payments, q.loan_id = p.loan_id ∧ q.id ≠ pid ∧ q.status = PaymentStatus.pending) →
      (makePayment s pid now).2.loans p.loan_id = some loan ∧
      (makePayment s pid now).1
          = PayResult.ok LoanStatus.funded (roundCents (feePerInstallment loan))
              (roundCents (p.amount - feePerInstallment loan))) := by
  have hpid : p.id = pid := find?_id_eq hp
  rw [makePayment_eq_settleCore s pid now p loan lender hp hpend hloan hlender]
  constructor
  · intro hall
    have hcond : ((s.payments.map
          (fun q => if q.id == p.id then settledPayment p loan now else q)).filter
          (fun q => q.loan_id == loan.id)).all (fun q => q.status == PaymentStatus.paid)
        = true := by
      rw [List.all_eq_true]
      intro q hq
      obtain ⟨hq1, hq2⟩ := List.mem_filter.1 hq
      obtain ⟨orig, horig, heq⟩ := List.mem_map.1 hq1
      by_cases horigid : orig.id = p.id
      · rw [if_pos (by simpa using horigid)] at heq
        rw [← heq]
        rfl
      · rw [if_neg (by simpa using horigid)] at heq
        rw [← heq] at hq2 ⊢
        have hql : orig.loan_id = p.loan_id := by
          have h3 : orig.loan_id = loan.id := by simpa using hq2
          rw [h3]
          exact hid
        have hstat : orig.status = PaymentStatus.paid :=
          hall orig horig hql (by rw [← hpid]; exact horigid)
        rw [hstat]
        rfl
    obtain ⟨hl, hr⟩ := settleCore_all_paid s p loan lender now hcond
    refine ⟨?_, hr⟩
    rw [hl, ← hid]
    exact Function.update_same loan.id _ s.loans
  · rintro ⟨q0, hq0mem, hq0loan, hq0id, hq0pend⟩
    have hcond : ¬ ((s.payments.map
          (fun q => if q.id == p.id then settledPayment p loan now else q)).filter
          (fun q => q.loan_id == loan.id)).all (fun q => q.status == PaymentStatus.paid)
        = true := by
      rw [List.all_eq_true]
      intro hforall
      have hq0mem' : q0 ∈ s.payments.map
          (fun q => if q.id == p.id then settledPayment p loan now else q) := by
        refine List.mem_map.2 ⟨q0, hq0mem, ?_⟩
        rw [if_neg (by simp [hpid, hq0id])]
      have hq0fil : q0 ∈ (s.payments.map
          (fun q => if q.id == p.id then settledPayment p loan now else q)).filter
          (fun q => q.loan_id == loan.id) := by
        refine List.mem_filter.2 ⟨hq0mem', ?_⟩
        simp [hq0loan, hid]
      have := hforall q0 hq0fil
      rw [hq0pend] at this
      simp at this
    obtain ⟨hl, hr⟩ := settleCore_not_all_paid s p loan lender now hcond
    refine ⟨?_, ?_⟩
    · rw [hl]
      exact hloan
    · rw [hr, hfund]

/-- Witness: settling the last pending installment of the funded 2-payment
loan marks it completed. -/
theorem C9_completion_detection_witness :
    c9State.payments.find? (fun q => q.id == 11) = some c9Pay ∧
    c9Loan.status = LoanStatus.funded ∧
    (makePayment c9State 11 ⟨2026, 10, 2⟩).2.loans c9Pay.loan_id
      = some { c9Loan with status := LoanStatus.completed } :=
  ⟨rfl, rfl,
    ((C9_completion_detection c9State 11 ⟨2026, 10, 2⟩ c9Pay c9Loan 2
        rfl rfl rfl rfl rfl rfl).1
      (by decide)).1⟩

/-- C1 (failing input): `MakePaymentView.post` settles a 500.00 installment
although the borrower's balance is 0 — it never fails with an
insufficient-funds error — and the borrower's balance is not reduced at all.
Only the lender is credited. -/
theorem C1_manual_settlement_no_borrower_debit :
    c1State.balances c1Loan.borrower = 0 ∧ (0 : ℚ) < 500 ∧
    (makePayment c1State 1 ⟨2026, 10, 12⟩).1
      = PayResult.ok LoanStatus.funded (5/4) (1995/4) ∧
    (makePayment c1State 1 ⟨2026, 10, 12⟩).2.balances c1Loan.borrower = 0 ∧
    (makePayment c1State 1 ⟨2026, 10, 12⟩).2.balances 2 = 1995/4 := by
  refine ⟨by with_unfolding_all rfl, by norm_num, by with_unfolding_all rfl,
    by with_unfolding_all rfl, by with_unfolding_all rfl⟩

/-- C2 (failing input): accepting offer 1 funds the loan, yet accepting
offer 2 afterwards *also* succeeds — `AcceptOfferView` checks only
`offer.is_accepted`, never the loan's status — so both offers end up
accepted, the loan is re-funded with the second lender, the second lender is
debited too, and a duplicate schedule is appended (4 payments for the 2-month
loan). -/
theorem C2_double_acceptance :
    (acceptOffer c2State 1 ⟨2026, 10, 1⟩).1 = AcceptResult.ok ∧
    ((acceptOffer c2State 1 ⟨2026, 10, 1⟩).2.loans 1).map Loan.status
      = some LoanStatus.funded ∧
    (acceptOffer (acceptOffer c2State 1 ⟨2026, 10, 1⟩).2 2 ⟨2026, 10, 2⟩).1
      = AcceptResult.ok ∧
    ((acceptOffer (acceptOffer c2State 1 ⟨2026, 10, 1⟩).2 2 ⟨2026, 10, 2⟩).2.offers.map
      LoanOffer.is_accepted) = [true, true] ∧
    (((acceptOffer (acceptOffer c2State 1 ⟨2026, 10, 1⟩).2 2 ⟨2026, 10, 2⟩).2.loans 1).map
      Loan.lender) = some (some 3) ∧
    (acceptOffer (acceptOffer c2State 1 ⟨2026, 10, 1⟩).2 2 ⟨2026, 10, 2⟩).2.payments.length
      = 4 ∧
    (acceptOffer (acceptOffer c2State 1 ⟨2026, 10, 1⟩).2 2 ⟨2026, 10, 2⟩).2.balances 3
      = 3585/4 := by
  refine ⟨by with_unfolding_all rfl, by with_unfolding_all rfl, by with_unfolding_all rfl,
    by with_unfolding_all rfl, by with_unfolding_all rfl, by with_unfolding_all rfl,
    by with_unfolding_all rfl⟩

/-- C3 (failing input): accepting the offer on the 0-month loan debits the
lender (1000 − 103.75 = 896.25), marks the loan funded and the offer
accepted, then raises division-by-zero in `_create_payment_schedule` —
leaving committed partial state with *no* payment schedule, since the view
opens no transaction. -/
theorem C3_zero_term_partial_application :
    (acceptOffer c3State 1 ⟨2026, 10, 1⟩).1 = AcceptResult.divisionByZero ∧
    (acceptOffer c3State 1 ⟨2026, 10, 1⟩).2.balances 2 = 3585/4 ∧
    ((acceptOffer c3State 1 ⟨2026, 10, 1⟩).2.loans 1).map Loan.status
      = some LoanStatus.funded ∧
    ((acceptOffer c3State 1 ⟨2026, 10, 1⟩).2.offers.map LoanOffer.is_accepted) = [true] ∧
    (acceptOffer c3State 1 ⟨2026, 10, 1⟩).2.payments = [] := by
  refine ⟨by with_unfolding_all rfl, by with_unfolding_all rfl, by with_unfolding_all rfl,
    by with_unfolding_all rfl, by with_unfolding_all rfl⟩

/-- The payments the scenario acceptance creates are exactly the schedule of
the funded loan row. -/
theorem c5_payments_eq :
    (acceptOffer c5State 1 ⟨2026, 10, 12⟩).2.payments = createPaymentSchedule c5Funded 1 := by
  with_unfolding_all rfl

/-- The flat monthly amount of the C5 scenario: 5003.75/12 + 5003.75·0.155/12
= 481.6109375 exactly, which rounds to 481.61. -/
theorem c5_amount_value :
    roundCents (c5Funded.total_loan_amount / (c5Funded.loan_period_months : ℚ) +
      c5Funded.total_loan_amount * (c5Funded.annual_interest_rate.getD 0 / 100 / 12))
      = 48161/100 := by
  with_unfolding_all rfl

/-- C5 counterexample: in the spec's scenario (5000.00, 12 months, 15.50%,
fee 3.75) the first installment the code creates is *not* 481.63. -/
theorem C5_counterexample :
    ((acceptOffer c5State 1 ⟨2026, 10, 12⟩).2.payments.map Payment.amount).head?
      ≠ some (48163/100) := by
  rw [show ((acceptOffer c5State 1 ⟨2026, 10, 12⟩).2.payments.map Payment.amount).head?
      = some (48161/100) from by with_unfolding_all rfl]
  simp only [ne_eq, Option.some.injEq]
  norm_num

/-- C5 (amended): every installment the generator creates carries the
formula amount `round(total / term + total * rate / 100 / 12, 2)`, and in the
scenario the total funded amount is 5003.75 and that rounded amount is 481.61
(the spec's 417.00 + 64.63 ≈ 481.63 double-rounds the principal portion
416.98). -/
theorem C5_scenario_installment :
    (∀ loan startId, ∀ pay ∈ createPaymentSchedule loan startId,
      pay.amount = roundCents (loan.total_loan_amount / (loan.loan_period_months : ℚ) +
        loan.total_loan_amount * (loan.annual_interest_rate.getD 0 / 100 / 12))) ∧
    (acceptOffer c5State 1 ⟨2026, 10, 12⟩).1 = AcceptResult.ok ∧
    ((acceptOffer c5State 1 ⟨2026, 10, 12⟩).2.loans 1).map Loan.total_loan_amount
      = some (500375/100) ∧
    roundCents (500375/100 / 12 + 500375/100 * (155/10 / 100 / 12)) = 48161/100 ∧
    ((acceptOffer c5State 1 ⟨2026, 10, 12⟩).2.payments.map Payment.amount).head?
      = some (48161/100) ∧
    ((acceptOffer c5State 1 ⟨2026, 10, 12⟩).2.payments.all
      (fun pay => pay.amount == 48161/100)) = true := by
  refine ⟨fun loan startId => schedule_amount loan startId,
    by with_unfolding_all rfl, by with_unfolding_all rfl, by with_unfolding_all rfl,
    by with_unfolding_all rfl, ?_⟩
  rw [c5_payments_eq, List.all_eq_true]
  intro pay hpay
  have h := schedule_amount c5Funded 1 pay hpay
  rw [h, c5_amount_value]
  exact beq_self_eq_true _

/-- Witness: the first installment row of the C5 scenario schedule, with the
amount instantiated through the general conjunct of the claim theorem. -/
theorem C5_scenario_installment_witness :
    c5Pay1 ∈ createPaymentSchedule c5Funded 1 ∧
    c5Pay1.amount = roundCents (c5Funded.total_loan_amount /
        (c5Funded.loan_period_months : ℚ) +
      c5Funded.total_loan_amount * (c5Funded.annual_interest_rate.getD 0 / 100 / 12)) :=
  have hmem : c5Pay1 ∈ createPaymentSchedule c5Funded 1 := by
    with_unfolding_all exact List.Mem.head _
  ⟨hmem, C5_scenario_installment.1 c5Funded 1 c5Pay1 hmem⟩

/-- C10 counterexample: the overdue pending payment of the funded loan is
selected by the sweep, the borrower cannot afford it — yet the summary counts
*zero* failed payments (the insufficient branch of the loop body has no
`else`), and the payment is simply left pending. -/
theorem C10_counterexample :
    (dueFilter c10State ⟨2026, 10, 12⟩).length = 1 ∧
    c10State.balances c1Loan.borrower < 500 ∧
    (processLoanRepayments c10State ⟨2026, 10, 12⟩ ⟨2026, 10, 12⟩).1.failed_payments = 0 ∧
    (processLoanRepayments c10State ⟨2026, 10, 12⟩ ⟨2026, 10, 12⟩).1.processed_payments = 0 ∧
    ((processLoanRepayments c10State ⟨2026, 10, 12⟩ ⟨2026, 10, 12⟩).2.payments.map
      Payment.status) = [PaymentStatus.pending] := by
  refine ⟨by with_unfolding_all rfl, by norm_num [c10State, c1Loan], by with_unfolding_all rfl,
    by with_unfolding_all rfl, by with_unfolding_all rfl⟩

/-- C10 (amended): the sweep selects exactly the payments that are due on or
before today, still pending, and belong to a funded loan; and a selected
payment whose borrower cannot currently cover it is skipped with *no* state
change and *no* contribution to any count — in particular it is not counted
as a failure. -/
theorem C10_selection_and_silent_skip :
    (∀ s today p, p ∈ dueFilter s today ↔
      (p ∈ s.payments ∧ p.due_date.leb today = true ∧ p.status = PaymentStatus.pending ∧
        ∃ loan, s.loans p.loan_id = some loan ∧ loan.status = LoanStatus.funded)) ∧
    (∀ now s processed failed completedLoans p loan,
      s.balances loan.borrower < p.amount →
        sweepStep now (s, processed, failed, completedLoans) (p, loan)
          = (s, processed, failed, completedLoans)) := by
  constructor
  · intro s today p
    rw [dueFilter, List.mem_filter]
    unfold duePredicate
    constructor
    · rintro ⟨hmem, hpred⟩
      refine ⟨hmem, ?_⟩
      cases hsl : s.loans p.loan_id with
      | none => rw [hsl] at hpred; simp at hpred
      | some loan =>
        rw [hsl] at hpred
        simp only [Bool.and_eq_true, decide_eq_true_eq] at hpred
        exact ⟨hpred.1.1, hpred.1.2, loan, rfl, hpred.2⟩
    · rintro ⟨hmem, hle, hpend, loan, hsl, hfund⟩
      refine ⟨hmem, ?_⟩
      rw [hsl]
      simp [hle, hpend, hfund]
  · intro now s processed failed completedLoans p loan h
    unfold sweepStep
    dsimp only
    rw [if_neg (not_le.mpr h)]

/-- Witness: the silent-skip half of the amended C10 at the concrete state. -/
theorem C10_selection_and_silent_skip_witness :
    c10State.balances c1Loan.borrower < (500 : ℚ) ∧
    sweepStep ⟨2026, 10, 12⟩ (c10State, 0, 0, [])
        ({ id := 1, loan_id := 1, payment_number := 1, amount := 500,
           due_date := ⟨2026, 9, 1⟩, status := PaymentStatus.pending, paid_at := none,
           platform_fee := 0, lender_amount := 0 }, c1Loan)
      = (c10State, 0, 0, []) :=
  ⟨by norm_num [c10State, c1Loan],
    C10_selection_and_silent_skip.2 ⟨2026, 10, 12⟩ c10State 0 0 []
      { id := 1, loan_id := 1, payment_number := 1, amount := 500,
        due_date := ⟨2026, 9, 1⟩, status := PaymentStatus.pending, paid_at := none,
        platform_fee := 0, lender_amount := 0 } c1Loan
      (by norm_num [c10State, c1Loan])⟩

end Lenme
